import Mathlib

/-
Verification development for the tax-calculator repository.

Shallow embedding conventions:
- Go float64 values (salary amounts, rates, hours) are modelled as ℚ; the
  operations the claims depend on (comparison with 0, record equality) agree
  with float semantics on the inputs involved.
- Network and clock effects (the two jurisdiction-discovery fetches, the
  upstream POST, the rate-limiter wait, time.Now) are abstracted as explicit
  world parameters carrying their outcomes; all repository logic around them
  is translated from the source.
- The process-wide mutable map jurisdiction.JurisdictionsByCode and the LRU
  response cache are threaded as explicit state (association lists).
-/

namespace TaxCalc

/-! ## Jurisdiction data model (internal/jurisdiction) -/

/-- Code (jurisdiction.go): a long name and a short name. -/
structure Code where
  name : String
  code : String
deriving DecidableEq

/-- LevelCode (jurisdiction.go): federal, state, etc. -/
structure LevelCode where
  code : String
deriving DecidableEq

/-- Jurisdiction (jurisdiction.go). Go passes these by pointer; values are
used here since no claim depends on aliasing. -/
structure Jurisdiction where
  jurisdictionID : String
  jurisdictionCode : Code
  jurisdictionLevelCode : LevelCode
deriving DecidableEq

/-- FallbackFederalJurisdiction (jurisdiction.go). -/
def FallbackFederalJurisdiction : Jurisdiction :=
  { jurisdictionID := "dea07e6d-9432-4f65-958b-25f09e18117e"
    jurisdictionCode := { name := "United States Federal", code := "US" }
    jurisdictionLevelCode := { code := "FEDERAL" } }

/-- The process-wide map jurisdiction.JurisdictionsByCode, modelled as an
association list from code to Jurisdiction. -/
abbrev Directory := List (String × Jurisdiction)

/-- Go map read JurisdictionsByCode[code]. -/
def dirLookup (dir : Directory) (code : String) : Option Jurisdiction :=
  (dir.find? (fun p => p.1 == code)).map Prod.snd

/-- Go map write JurisdictionsByCode[code] = j (overwrite or insert). -/
def dirInsert (dir : Directory) (code : String) (j : Jurisdiction) : Directory :=
  if dir.any (fun p => p.1 == code) then
    dir.map (fun p => if p.1 == code then (code, j) else p)
  else
    dir ++ [(code, j)]

/-- populateJurisdictionsByCode (jurisdiction.go): keys each jurisdiction by
its JurisdictionCode.Code. -/
def populateJurisdictionsByCode (dir : Directory) (js : List Jurisdiction) : Directory :=
  js.foldl (fun d j => dirInsert d j.jurisdictionCode.code j) dir

/-- LoadJurisdictions (jurisdiction.go lines 59-91). The two HTTP fetches and
the regex/JSON parsing stages are abstracted as the outcome `loadResult`; the
function's state effect is translated from the source: on success the parsed
jurisdictions (states plus federal) populate the map, on any failure the map
is left untouched and the error is propagated. -/
def LoadJurisdictions (dir : Directory) (loadResult : Except String (List Jurisdiction)) :
    Except String (List Jurisdiction) × Directory :=
  match loadResult with
  | .error e => (.error e, dir)
  | .ok js => (.ok js, populateJurisdictionsByCode dir js)

/-- GetFederalJurisdiction (jurisdiction.go lines 94-105). -/
def GetFederalJurisdiction (dir : Directory) : Jurisdiction :=
  if dir.length < 1 then
    FallbackFederalJurisdiction
  else
    match dirLookup dir ("US") with
    | some federal => federal
    | none => FallbackFederalJurisdiction

/-! ## Request data model (internal/request/request.go) -/

/-- APIURL (request.go). -/
def APIURL : String := "https://paycheck-calculator.adp.com/api/pcc/v2/calculations"

/-- CalculationTypeCode (request.go). -/
structure CalculationTypeCode where
  code : String
deriving DecidableEq

/-- GrossToNetTypeCode (request.go). -/
def GrossToNetTypeCode : CalculationTypeCode := { code := "GROSS_TO_NET" }

/-- StatutoryPolicyInput (request.go); the only instance carries a boolean
Value, so the interface-typed field is modelled as Bool. -/
structure StatutoryPolicyInput where
  id : String
  name : String
  value : Bool
  type : String
  templateID : String
deriving DecidableEq

/-- StatutoryPolicy2020W4 (request.go). -/
def StatutoryPolicy2020W4 : StatutoryPolicyInput :=
  { id := "w4Form2020Indicator"
    name := "w4Form2020Indicator"
    value := true
    type := "boolean"
    templateID := "e01a6863-4fc7-4c2a-ac8c-f8d896c6fba2" }

/-- Jurisdictions (request.go): lived-in and worked-in lists. -/
structure Jurisdictions where
  workedInJurisdictions : List Jurisdiction
  livedInJurisdictions : List Jurisdiction
deriving DecidableEq

/-- PayFrequencyCode (request.go). -/
structure PayFrequencyCode where
  code : String
deriving DecidableEq

/-- MonthlyPayFrequencyCode (request.go). -/
def MonthlyPayFrequencyCode : PayFrequencyCode := { code := "MONTHLY" }

/-- SemiMonthlyPayFrequencyCode (request.go). -/
def SemiMonthlyPayFrequencyCode : PayFrequencyCode := { code := "SEMI_MONTHLY" }

/-- BiWeeklyPayFrequencyCode (request.go). -/
def BiWeeklyPayFrequencyCode : PayFrequencyCode := { code := "BI_WEEKLY" }

/-- WeeklyPayFrequencyCode (request.go). -/
def WeeklyPayFrequencyCode : PayFrequencyCode := { code := "WEEKLY" }

/-- PayFrequencyCode.String (request.go lines 82-97). -/
def PayFrequencyCode.toString (pfc : PayFrequencyCode) : String :=
  if pfc = MonthlyPayFrequencyCode then "monthly"
  else if pfc = SemiMonthlyPayFrequencyCode then "semi-monthly"
  else if pfc = BiWeeklyPayFrequencyCode then "bi-weekly"
  else if pfc = WeeklyPayFrequencyCode then "weekly"
  else ""

/-- PayFrequencyCode.Set (request.go lines 99-118): returns the updated code
and the returned error, which is always nil (modelled as none). -/
def PayFrequencyCode.set (value : String) : PayFrequencyCode × Option String :=
  if value = "monthly" then (MonthlyPayFrequencyCode, none)
  else if value = "semi-monthly" then (SemiMonthlyPayFrequencyCode, none)
  else if value = "biweekly" then (BiWeeklyPayFrequencyCode, none)
  else if value = "weekly" then (WeeklyPayFrequencyCode, none)
  else (MonthlyPayFrequencyCode, none)

/-- SalaryFrequency (request.go): a string-typed enum. -/
abbrev SalaryFrequency := String

/-- AnnualSalaryFrequency (request.go). -/
def AnnualSalaryFrequency : SalaryFrequency := "salary"

/-- PeriodicSalaryFrequency (request.go). -/
def PeriodicSalaryFrequency : SalaryFrequency := "salary_per_period"

/-- SalaryFrequency.validate (request.go lines 154-161): some error message on
an invalid frequency, none otherwise. -/
def salaryFrequencyValidate (f : SalaryFrequency) : Option String :=
  if f = AnnualSalaryFrequency ∨ f = PeriodicSalaryFrequency then none
  else some ("invalid salary frequency: " ++ f)

/-- BusinessPolicyInput (request.go); all instances carry float64 values. -/
structure BusinessPolicyInput where
  name : String
  value : ℚ
  type : String
deriving DecidableEq

/-- BusinessPolicy (request.go). `aliasName` embeds the Go field Alias. -/
structure BusinessPolicy where
  id : String
  aliasName : String
  label : String
  inputs : List BusinessPolicyInput
deriving DecidableEq

/-- The Go zero value of BusinessPolicy, produced by make. -/
def zeroBusinessPolicy : BusinessPolicy :=
  { id := "", aliasName := "", label := "", inputs := [] }

/-- newSalaryBusinessPolicy (request.go lines 173-180). -/
def newSalaryBusinessPolicy (amount : ℚ) (frequency : SalaryFrequency) (index : ℕ) :
    BusinessPolicy :=
  { id := "salary-" ++ ToString.toString index
    aliasName := frequency
    label := "SALARY"
    inputs := [{ name := "appliedPayPeriodAmount", value := amount, type := "amount" }] }

/-- newHourlyBusinessPolicy (request.go lines 184-194). -/
def newHourlyBusinessPolicy (amount : ℚ) (hours : ℚ) (index : ℕ) : BusinessPolicy :=
  { id := "hourly-" ++ ToString.toString index
    aliasName := "hourly"
    label := "HOURLY"
    inputs :=
      [{ name := "appliedHourlyRate", value := amount, type := "rate" },
       { name := "regularHoursWorked", value := hours, type := "quantity" }] }

/-- EarningType (request.go). -/
structure EarningType where
  value : String
  label : String
  type : String
deriving DecidableEq

/-- OvertimeEarningType (request.go). -/
def OvertimeEarningType : EarningType :=
  { value := "OvertimePay", label := "OVERTIME", type := "HUR" }

/-- DoubleTimeEarningType (request.go). -/
def DoubleTimeEarningType : EarningType :=
  { value := "DoubletimePay", label := "DOUBLE_TIME", type := "HUR" }

/-- PayLineUnit (request.go): the string rendering of a float. -/
structure PayLineUnit where
  value : String
deriving DecidableEq

/-- Model of rendering a rational with exactly two decimal places
(strconv.FormatFloat(v, 'f', 2, 64) and the %.2f verb), rounding to the
nearest hundredth. -/
def formatFloat2 (q : ℚ) : String :=
  let r : ℤ := round (q * 100)
  let sign := if r < 0 then "-" else ""
  let n := r.natAbs
  let frac := n % 100
  sign ++ ToString.toString (n / 100) ++ "." ++
    (if frac < 10 then "0" else "") ++ ToString.toString frac

/-- newPayLineUnit (request.go lines 258-260). -/
def newPayLineUnit (value : ℚ) : PayLineUnit :=
  { value := formatFloat2 value }

/-- PayLineAmount (request.go). -/
structure PayLineAmount where
  value : ℚ
deriving DecidableEq

/-- PayLineName (request.go). -/
structure PayLineName where
  value : String
deriving DecidableEq

/-- OvertimePayLineName (request.go). -/
def OvertimePayLineName : PayLineName := { value := "Overtime" }

/-- DoubleTimePayLineName (request.go). -/
def DoubleTimePayLineName : PayLineName := { value := "Double time" }

/-- ClientFactor (request.go). -/
structure ClientFactor where
  value : ℚ
deriving DecidableEq

/-- OvertimeClientFactor (request.go): fixed multiplier 1.5. -/
def OvertimeClientFactor : ClientFactor := { value := 3 / 2 }

/-- DoubletimeClientFactor (request.go): fixed multiplier 2. -/
def DoubletimeClientFactor : ClientFactor := { value := 2 }

/-- PayLine (request.go). -/
structure PayLine where
  earningType : EarningType
  unit : PayLineUnit
  amount : PayLineAmount
  name : PayLineName
  clientFactor : ClientFactor
deriving DecidableEq

/-- The Go zero value of PayLine, produced by make. -/
def zeroPayLine : PayLine :=
  { earningType := { value := "", label := "", type := "" }
    unit := { value := "" }
    amount := { value := 0 }
    name := { value := "" }
    clientFactor := { value := 0 } }

/-- newOvertimePayLine (request.go lines 211-219). -/
def newOvertimePayLine (hours rate : ℚ) : PayLine :=
  { earningType := OvertimeEarningType
    unit := newPayLineUnit hours
    amount := { value := rate }
    name := OvertimePayLineName
    clientFactor := OvertimeClientFactor }

/-- newDoubleTimePayLine (request.go lines 221-229). -/
def newDoubleTimePayLine (hours rate : ℚ) : PayLine :=
  { earningType := DoubleTimeEarningType
    unit := newPayLineUnit hours
    amount := { value := rate }
    name := DoubleTimePayLineName
    clientFactor := DoubletimeClientFactor }

/-- AdditionalEarnings (request.go). -/
structure AdditionalEarnings where
  payLines : List PayLine
deriving DecidableEq

/-- Request (request.go): the canonical upstream payload. Deductions is
[]struct\x7b\x7d in Go, modelled as a list of units. -/
structure Request where
  calculationTypeCode : CalculationTypeCode
  statutoryPolicyInputs : List StatutoryPolicyInput
  jurisdictions : Jurisdictions
  payDate : String
  payFrequencyCode : PayFrequencyCode
  businessPolicies : List BusinessPolicy
  additionalEarnings : AdditionalEarnings
  deductions : List Unit
deriving DecidableEq

/-! ## Response data model (internal/response/response.go) -/

/-- SummaryEntity (response.go). -/
structure SummaryEntity where
  amount : ℚ
  currencyCode : String
  label : String
deriving DecidableEq

/-- EarningsEntity (response.go). -/
structure EarningsEntity where
  amount : ℚ
  currencyCode : String
  label : String
  hours : ℚ
deriving DecidableEq

/-- Earnings (response.go). -/
structure Earnings where
  entities : List EarningsEntity
  summaryEntity : SummaryEntity
deriving DecidableEq

/-- TaxEntity (response.go). -/
structure TaxEntity where
  amount : ℚ
  currencyCode : String
  label : String
  jurisdiction : Jurisdiction
  parentJurisdiction : Jurisdiction
deriving DecidableEq

/-- TaxEntities (response.go). -/
structure TaxEntities where
  entities : List TaxEntity
  summaryEntity : SummaryEntity
deriving DecidableEq

/-- Taxes (response.go). -/
structure Taxes where
  federal : TaxEntities
  state : TaxEntities
  local_ : TaxEntities
  territory : TaxEntities
  summaryEntity : SummaryEntity
deriving DecidableEq

/-- Deductions (response.go); the entity format is undetermined upstream and
modelled as units. -/
structure Deductions where
  entities : List Unit
  summaryEntity : SummaryEntity
deriving DecidableEq

/-- Response (response.go). -/
structure Response where
  earnings : Earnings
  taxes : Taxes
  gross : SummaryEntity
  net : SummaryEntity
  deductions : Deductions
deriving DecidableEq

/-- A concrete all-zero Response value, used as the payload of abstracted
upstream successes in concrete instantiations. -/
def zeroResponse : Response :=
  let zeroSummary : SummaryEntity := { amount := 0, currencyCode := "", label := "" }
  let zeroTaxEntities : TaxEntities := { entities := [], summaryEntity := zeroSummary }
  { earnings := { entities := [], summaryEntity := zeroSummary }
    taxes :=
      { federal := zeroTaxEntities
        state := zeroTaxEntities
        local_ := zeroTaxEntities
        territory := zeroTaxEntities
        summaryEntity := zeroSummary }
    gross := zeroSummary
    net := zeroSummary
    deductions := { entities := [], summaryEntity := zeroSummary } }

/-! ## Request builder (internal/request, part with the fluent Builder) -/

/-- Builder (builder source lines 18-27). The sticky error is the
errorMessage field; empty string means no error, as in Go. -/
structure Builder where
  url : String
  payFrequencyCode : Option PayFrequencyCode
  jurisdictions : List Jurisdiction
  salaries : List BusinessPolicy
  hourlies : List BusinessPolicy
  overtime : List PayLine
  doubletime : List PayLine
  errorMessage : String
deriving DecidableEq

/-- NewBuilder (builder source lines 31-43): variadic url, defaulting to
APIURL when none is given. -/
def NewBuilder (url : List String) : Builder :=
  let urls := if url.length < 1 then url ++ [APIURL] else url
  { url := urls.headD APIURL
    payFrequencyCode := none
    jurisdictions := []
    salaries := []
    hourlies := []
    overtime := []
    doubletime := []
    errorMessage := "" }

/-- validate (builder source lines 355-361): the sticky error as an Option. -/
def Builder.validate (b : Builder) : Option String :=
  if b.errorMessage ≠ "" then some b.errorMessage else none

/-- WithPayFrequency (builder source lines 46-56). -/
def Builder.withPayFrequency (b : Builder) (payFrequencyCode : PayFrequencyCode) : Builder :=
  if (b.validate).isSome then b
  else { b with payFrequencyCode := some payFrequencyCode }

/-- WithJurisdictions (builder source lines 60-70). -/
def Builder.withJurisdictions (b : Builder) (jurisdictions : List Jurisdiction) : Builder :=
  if (b.validate).isSome then b
  else { b with jurisdictions := b.jurisdictions ++ jurisdictions }

/-- The outcome LoadJurisdictions would report if invoked now: the abstracted
external world seen by WithJurisdictionsByCode. -/
structure JurisdictionWorld where
  loadResult : Except String (List Jurisdiction)

/-- The loop of WithJurisdictionsByCode (builder source lines 99-110):
resolves codes left to right, failing on the first code absent from the map
with the exact message the source formats. -/
def lookupCodes (dir : Directory) : List String → Except String (List Jurisdiction)
  | [] => .ok []
  | code :: rest =>
    match dirLookup dir code with
    | none => .error ("no jurisdiction found for code: " ++ code)
    | some j =>
      match lookupCodes dir rest with
      | .error e => .error e
      | .ok js => .ok (j :: js)

/-- WithJurisdictionsByCode (builder source lines 75-115). Returns the
builder, the updated process-wide directory, and whether a discovery attempt
(a call to LoadJurisdictions) was made. -/
def Builder.withJurisdictionsByCode (b : Builder) (jurisdictionCodes : List String)
    (dir : Directory) (w : JurisdictionWorld) : Builder × Directory × Bool :=
  if (b.validate).isSome then (b, dir, false)
  else if dir.length < 1 then
    match LoadJurisdictions dir w.loadResult with
    | (.error e, dir2) => ({ b with errorMessage := e }, dir2, true)
    | (.ok _, dir2) =>
      match lookupCodes dir2 jurisdictionCodes with
      | .error e => ({ b with errorMessage := e }, dir2, true)
      | .ok js => ({ b with jurisdictions := b.jurisdictions ++ js }, dir2, true)
  else
    match lookupCodes dir jurisdictionCodes with
    | .error e => ({ b with errorMessage := e }, dir, false)
    | .ok js => ({ b with jurisdictions := b.jurisdictions ++ js }, dir, false)

/-- WithSalary (builder source lines 118-145). -/
def Builder.withSalary (b : Builder) (amount : ℚ) (frequency : SalaryFrequency) : Builder :=
  if (b.validate).isSome then b
  else if amount < 0 then { b with errorMessage := "salary amount must be non-negative" }
  else
    match salaryFrequencyValidate frequency with
    | some e => { b with errorMessage := e }
    | none =>
      { b with salaries :=
          b.salaries ++ [newSalaryBusinessPolicy amount frequency (b.salaries.length + 1)] }

/-- WithHourly (builder source lines 148-175): hours checked before rate, and
newHourlyBusinessPolicy is called with the rate as the amount. -/
def Builder.withHourly (b : Builder) (hours rate : ℚ) : Builder :=
  if (b.validate).isSome then b
  else if hours < 0 then { b with errorMessage := "hourly hours must be non-negative" }
  else if rate < 0 then { b with errorMessage := "hourly rate must be non-negative" }
  else
    { b with hourlies :=
        b.hourlies ++ [newHourlyBusinessPolicy rate hours (b.hourlies.length + 1)] }

/-- WithOvertime (builder source lines 178-205). -/
def Builder.withOvertime (b : Builder) (hours rate : ℚ) : Builder :=
  if (b.validate).isSome then b
  else if hours < 0 then { b with errorMessage := "overtime hours must be non-negative" }
  else if rate < 0 then { b with errorMessage := "overtime rate must be non-negative" }
  else { b with overtime := b.overtime ++ [newOvertimePayLine hours rate] }

/-- WithDoubleTime (builder source lines 208-235). -/
def Builder.withDoubleTime (b : Builder) (hours rate : ℚ) : Builder :=
  if (b.validate).isSome then b
  else if hours < 0 then { b with errorMessage := "double time hours must be non-negative" }
  else if rate < 0 then { b with errorMessage := "double time rate must be non-negative" }
  else { b with doubletime := b.doubletime ++ [newDoubleTimePayLine hours rate] }

/-- Go copy(dst, src): overwrites the first min(len dst, len src) elements of
dst with the corresponding elements of src; the length of dst is unchanged. -/
def goCopy {α : Type} (dst src : List α) : List α :=
  src.take dst.length ++ dst.drop (min dst.length src.length)

/-- Go make([]T, n): a list of n zero values. -/
def goMake {α : Type} (n : ℕ) (zero : α) : List α :=
  List.replicate n zero

/-- buildRequest (builder source lines 302-351), translated statement by
statement; time.Now().Format(time.DateOnly) is abstracted as payDate. Note
the policies slice is allocated with length len(salaries) only, so the copy
into policies[len(salaries):] writes nothing, while payLines is allocated
with the summed length. -/
def Builder.buildRequest (b : Builder) (dir : Directory) (payDate : String) : Request :=
  let payFrequency :=
    match b.payFrequencyCode with
    | none => MonthlyPayFrequencyCode
    | some p => p
  let jurisdictions := ([] : List Jurisdiction) ++ b.jurisdictions
  let hasFederal := jurisdictions.any (fun j => j.jurisdictionCode.code == "US")
  let jurisdictions :=
    if !hasFederal then jurisdictions ++ [GetFederalJurisdiction dir] else jurisdictions
  let policies := goMake b.salaries.length zeroBusinessPolicy
  let policies := goCopy policies b.salaries
  let policies :=
    policies.take b.salaries.length ++ goCopy (policies.drop b.salaries.length) b.hourlies
  let payLines := goMake (b.overtime.length + b.doubletime.length) zeroPayLine
  let payLines := goCopy payLines b.overtime
  let payLines :=
    payLines.take b.overtime.length ++ goCopy (payLines.drop b.overtime.length) b.doubletime
  { calculationTypeCode := GrossToNetTypeCode
    statutoryPolicyInputs := [StatutoryPolicy2020W4]
    jurisdictions :=
      { livedInJurisdictions := jurisdictions
        workedInJurisdictions := jurisdictions }
    payDate := payDate
    payFrequencyCode := payFrequency
    businessPolicies := policies
    additionalEarnings := { payLines := payLines }
    deductions := [] }

/-- The abstracted outcome of the upstream POST: covers the http.Post call,
the status check, the body read, and the JSON unmarshal of Send. -/
structure UpstreamWorld where
  postResult : Except String Response

/-- Which effects Send performed: whether the request was JSON-marshalled and
whether the HTTP POST was issued. -/
structure SendTrace where
  serialized : Bool
  posted : Bool
deriving DecidableEq

/-- Send (builder source lines 252-298). Returns the builder as left by the
method (the source assigns no builder field, so it is returned unchanged),
the result, and the effect trace. json.Marshal cannot fail on these types, so
the marshalled request is not a failure point; everything after it is the
abstracted postResult. -/
def Builder.send (b : Builder) (dir : Directory) (payDate : String) (w : UpstreamWorld) :
    Builder × Except String Response × SendTrace :=
  match b.validate with
  | some e => (b, .error e, { serialized := false, posted := false })
  | none =>
    let _requestJSON := b.buildRequest dir payDate
    match w.postResult with
    | .error e => (b, .error e, { serialized := true, posted := true })
    | .ok resp => (b, .ok resp, { serialized := true, posted := true })

/-! ## Server (internal/server/server.go) -/

/-- requestParams (server.go lines 95-99). -/
structure RequestParams where
  salary : ℚ
  payFrequency : PayFrequencyCode
  state : String
deriving DecidableEq

/-- The inbound query string: url.Query().Get returns the empty string for a
missing parameter, so each parameter is a String with "" meaning absent. -/
structure Query where
  salary : String
  payFrequency : String
  state : String
deriving DecidableEq

/-- Modelled behaviour of strconv.ParseFloat on plain decimal literals: an
optional sign, digits, and an optional fractional part. Scientific notation,
hex floats, infinities and NaN are not modelled; every input these claims
touch is a plain decimal. -/
def natOfDigits (cs : List Char) : ℕ :=
  cs.foldl (fun acc c => acc * 10 + (c.toNat - 48)) 0

/-- Parse an unsigned decimal digit string with an optional fractional part
to a rational. A second dot or any non-digit makes it fail, as it would make
ParseFloat fail. -/
def parseUnsigned? (cs : List Char) : Option ℚ :=
  let intPart := cs.takeWhile (fun c => c ≠ '.')
  let rest := cs.dropWhile (fun c => c ≠ '.')
  match rest with
  | [] =>
    if intPart ≠ [] ∧ intPart.all Char.isDigit then
      some (natOfDigits intPart : ℚ)
    else none
  | _ :: fracPart =>
    if (intPart ≠ [] ∨ fracPart ≠ []) ∧ intPart.all Char.isDigit ∧ fracPart.all Char.isDigit
    then
      some ((natOfDigits intPart : ℚ) +
        (natOfDigits fracPart : ℚ) / ((10 : ℚ) ^ fracPart.length))
    else none

/-- Parse a decimal string to a rational, as strconv.ParseFloat would accept
it (restricted to plain decimal syntax). -/
def parseFloat? (s : String) : Option ℚ :=
  match s.data with
  | '-' :: rest => (parseUnsigned? rest).map (fun q => -q)
  | '+' :: rest => parseUnsigned? rest
  | cs => parseUnsigned? cs

/-- parseRequestParams (server.go lines 102-120). The wrapped ParseFloat
error text is abstracted to its constant prefix. -/
def parseRequestParams (q : Query) : Except String RequestParams :=
  if q.salary = "" then .error ("salary must be specified")
  else
    match parseFloat? q.salary with
    | none => .error ("salary is not a valid float")
    | some salaryFloat =>
      let payFrequencyCode := (PayFrequencyCode.set q.payFrequency).1
      .ok { salary := salaryFloat, payFrequency := payFrequencyCode, state := q.state }

/-- getCacheKey (server.go lines 123-125): %.2f of the salary, then the state
code, then the String rendering of the pay frequency. -/
def RequestParams.getCacheKey (params : RequestParams) : String :=
  formatFloat2 params.salary ++ params.state ++ params.payFrequency.toString

/-- buildRequest on requestParams (server.go lines 128-140): composes the
fluent chain; WithJurisdictionsByCode may touch the process-wide directory. -/
def RequestParams.buildRequest (params : RequestParams) (dir : Directory)
    (jw : JurisdictionWorld) : Builder × Directory :=
  let builder :=
    ((NewBuilder []).withSalary params.salary AnnualSalaryFrequency).withPayFrequency
      params.payFrequency
  if params.state ≠ "" then
    let r := builder.withJurisdictionsByCode [params.state] dir jw
    (r.1, r.2.1)
  else (builder, dir)

/-- The bounded LRU response cache (hashicorp golang-lru, an external
dependency), modelled by its Get/Add contract as an association list; no
claim touches capacity or eviction order. -/
abbrev Cache := List (String × Response)

/-- Cache.Get. -/
def cacheGet (c : Cache) (k : String) : Option Response :=
  (c.find? (fun p => p.1 == k)).map Prod.snd

/-- Cache.Add: stores v under k. -/
def cacheAdd (c : Cache) (k : String) (v : Response) : Cache :=
  (k, v) :: c.filter (fun p => p.1 != k)

/-- The abstracted external world of one request flow: the rate-limiter wait
outcome (golang.org/x/time/rate, an external dependency), the discovery
outcome, the upstream POST outcome, and the current date. -/
structure ServerWorld where
  waitResult : Except String Unit
  jw : JurisdictionWorld
  upstream : UpstreamWorld
  payDate : String

/-- What retrieveOrRequest produced and did: the result, the cache and
directory after the call, and whether the limiter wait and the upstream POST
happened. -/
structure RetrieveResult where
  result : Except String Response
  cache : Cache
  dir : Directory
  waited : Bool
  posted : Bool

/-- retrieveOrRequest (server.go lines 144-175). -/
def RequestParams.retrieveOrRequest (params : RequestParams) (cache : Cache)
    (dir : Directory) (w : ServerWorld) : RetrieveResult :=
  let cacheKey := params.getCacheKey
  match cacheGet cache cacheKey with
  | some cachedResponse =>
    { result := .ok cachedResponse, cache := cache, dir := dir, waited := false, posted := false }
  | none =>
    match w.waitResult with
    | .error e =>
      { result := .error ("failed to wait for rate limit: " ++ e), cache := cache, dir := dir
        waited := true, posted := false }
    | .ok _ =>
      let built := params.buildRequest dir w.jw
      let sent := built.1.send built.2 w.payDate w.upstream
      match sent.2.1 with
      | .error e =>
        { result := .error ("failed to send request: " ++ e), cache := cache, dir := built.2
          waited := true, posted := sent.2.2.posted }
      | .ok response =>
        { result := .ok response, cache := cacheAdd cache cacheKey response, dir := built.2
          waited := true, posted := sent.2.2.posted }

/-- An HTTP response as written by the handler: status code and body.
http.Error appends a newline to the body. -/
structure HTTPResponse where
  status : ℕ
  body : String
deriving DecidableEq

/-- ServeHTTP (server.go lines 66-93): parse failures yield 400, every error
from retrieveOrRequest yields 500, success yields 200 with the net amount. -/
def serveHTTP (q : Query) (cache : Cache) (dir : Directory) (w : ServerWorld) :
    HTTPResponse × Cache × Directory :=
  match parseRequestParams q with
  | .error e =>
    ({ status := 400, body := "failed to parse request params: " ++ e ++ "\n" }, cache, dir)
  | .ok params =>
    let r := params.retrieveOrRequest cache dir w
    match r.result with
    | .error e =>
      ({ status := 500, body := "failed to retrieve or request: " ++ e ++ "\n" }, r.cache, r.dir)
    | .ok response =>
      ({ status := 200, body := formatFloat2 response.net.amount ++ "\n" }, r.cache, r.dir)

/-! ## Helper definitions for the claims -/

/-- The six accumulated fields of a builder (salaries, hourlies, overtime,
doubletime, jurisdictions, pay frequency), bundled for preservation
statements. -/
def accumulated (b : Builder) :
    List BusinessPolicy × List BusinessPolicy × List PayLine × List PayLine ×
      List Jurisdiction × Option PayFrequencyCode :=
  (b.salaries, b.hourlies, b.overtime, b.doubletime, b.jurisdictions, b.payFrequencyCode)

/-- One mutating builder operation together with its arguments. -/
inductive BuilderOp
  | withSalary (amount : ℚ) (frequency : SalaryFrequency)
  | withHourly (hours rate : ℚ)
  | withOvertime (hours rate : ℚ)
  | withDoubleTime (hours rate : ℚ)
  | withPayFrequency (p : PayFrequencyCode)
  | withJurisdictions (js : List Jurisdiction)
  | withJurisdictionsByCode (codes : List String) (w : JurisdictionWorld)

/-- Apply one mutating operation to a builder and the process directory. -/
def applyOp (b : Builder) (dir : Directory) : BuilderOp → Builder × Directory
  | .withSalary a f => (b.withSalary a f, dir)
  | .withHourly h r => (b.withHourly h r, dir)
  | .withOvertime h r => (b.withOvertime h r, dir)
  | .withDoubleTime h r => (b.withDoubleTime h r, dir)
  | .withPayFrequency p => (b.withPayFrequency p, dir)
  | .withJurisdictions js => (b.withJurisdictions js, dir)
  | .withJurisdictionsByCode codes w =>
    let r := b.withJurisdictionsByCode codes dir w
    (r.1, r.2.1)

/-- Whether an Except value is a success. -/
def exceptIsOk {α : Type} : Except String α → Bool
  | .ok _ => true
  | .error _ => false

/-! ## Supporting lemmas -/

/-- Any mutating operation on a builder whose sticky error is set returns the
builder unchanged. -/
theorem applyOp_of_error (b : Builder) (dir : Directory) (op : BuilderOp)
    (h : b.errorMessage ≠ "") : (applyOp b dir op).1 = b := by
  have hb : b.validate = some b.errorMessage := by simp [Builder.validate, h]
  cases op <;>
    simp [applyOp, Builder.withSalary, Builder.withHourly, Builder.withOvertime,
      Builder.withDoubleTime, Builder.withPayFrequency, Builder.withJurisdictions,
      Builder.withJurisdictionsByCode, hb]

/-- C2: with the sticky error set, every mutating operation is a no-op on the
whole builder; and whenever an operation ends with the error set, all six
accumulated fields are exactly as they were before the call. -/
theorem C2_sticky_error_contract (b : Builder) (dir : Directory) (op : BuilderOp) :
    (b.errorMessage ≠ "" → (applyOp b dir op).1 = b)
    ∧ ((applyOp b dir op).1.errorMessage ≠ "" →
        accumulated (applyOp b dir op).1 = accumulated b) := by
  refine ⟨applyOp_of_error b dir op, ?_⟩
  intro hres
  by_cases herr : b.errorMessage = ""
  · have hb : b.validate = none := by simp [Builder.validate, herr]
    cases op with
    | withSalary a f =>
      simp only [applyOp] at hres ⊢
      simp [Builder.withSalary, hb] at hres ⊢
      split_ifs at hres ⊢ with hneg
      · simp [accumulated]
      · cases hsf : salaryFrequencyValidate f with
        | some e => simp [hsf] at hres ⊢; simp [accumulated]
        | none =>
          simp [hsf] at hres ⊢
          exact absurd herr hres
    | withHourly hrs r =>
      simp only [applyOp] at hres ⊢
      simp [Builder.withHourly, hb] at hres ⊢
      split_ifs at hres ⊢ with h1 h2
      · simp [accumulated]
      · simp [accumulated]
      · exact absurd herr hres
    | withOvertime hrs r =>
      simp only [applyOp] at hres ⊢
      simp [Builder.withOvertime, hb] at hres ⊢
      split_ifs at hres ⊢ with h1 h2
      · simp [accumulated]
      · simp [accumulated]
      · exact absurd herr hres
    | withDoubleTime hrs r =>
      simp only [applyOp] at hres ⊢
      simp [Builder.withDoubleTime, hb] at hres ⊢
      split_ifs at hres ⊢ with h1 h2
      · simp [accumulated]
      · simp [accumulated]
      · exact absurd herr hres
    | withPayFrequency p =>
      simp only [applyOp] at hres ⊢
      simp [Builder.withPayFrequency, hb] at hres ⊢
      exact absurd herr hres
    | withJurisdictions js =>
      simp only [applyOp] at hres ⊢
      simp [Builder.withJurisdictions, hb] at hres ⊢
      exact absurd herr hres
    | withJurisdictionsByCode codes w =>
      simp only [applyOp] at hres ⊢
      simp [Builder.withJurisdictionsByCode, hb] at hres ⊢
      split_ifs at hres ⊢ with hlen
      · cases hw : w.loadResult with
        | error e =>
          simp [LoadJurisdictions, hw] at hres ⊢
          simp [accumulated]
        | ok js =>
          simp [LoadJurisdictions, hw] at hres ⊢
          cases hlc : lookupCodes (populateJurisdictionsByCode dir js) codes with
          | error e2 => simp [hlc] at hres ⊢; simp [accumulated]
          | ok js2 =>
            simp [hlc] at hres ⊢
            exact absurd herr hres
      · cases hlc : lookupCodes dir codes with
        | error e2 => simp [hlc] at hres ⊢; simp [accumulated]
        | ok js2 =>
          simp [hlc] at hres ⊢
          exact absurd herr hres
  · rw [applyOp_of_error b dir op herr]

/-- C2 witness: a builder whose sticky error is set is left unchanged by a
concrete WithSalary call. -/
theorem C2_witness :
    (applyOp { NewBuilder [] with errorMessage := "salary amount must be non-negative" } []
      (.withSalary 5 AnnualSalaryFrequency)).1 =
      { NewBuilder [] with errorMessage := "salary amount must be non-negative" } :=
  (C2_sticky_error_contract _ _ _).1 (by decide)

/-- C1: the claim requires Send's composed request to list all salary
policies followed by all hourly policies. The code drops every hourly policy:
buildRequest allocates the joined policies slice with length len(salaries)
only, so the copy into policies[len(salaries):] writes nothing. With a single
hourly entry (40 hours at rate 10) the builder holds policy hourly-1, yet the
composed request's business-policies list is empty. -/
theorem C1_hourly_policies_dropped :
    ((NewBuilder []).withHourly 40 10).hourlies = [newHourlyBusinessPolicy 10 40 1]
    ∧ (((NewBuilder []).withHourly 40 10).buildRequest [] ("2026-01-01")).businessPolicies
        = [] := by
  constructor
  · decide
  · decide

/-- C10: Set is a left inverse of String for the monthly, semi-monthly and
weekly codes, but not for the bi-weekly code: String renders it "bi-weekly"
while Set only recognizes "biweekly", so the round trip lands on monthly. -/
theorem C10_set_string_round_trip :
    (PayFrequencyCode.set MonthlyPayFrequencyCode.toString).1 = MonthlyPayFrequencyCode
    ∧ (PayFrequencyCode.set SemiMonthlyPayFrequencyCode.toString).1 = SemiMonthlyPayFrequencyCode
    ∧ (PayFrequencyCode.set WeeklyPayFrequencyCode.toString).1 = WeeklyPayFrequencyCode
    ∧ BiWeeklyPayFrequencyCode.toString = "bi-weekly"
    ∧ (PayFrequencyCode.set BiWeeklyPayFrequencyCode.toString).1 = MonthlyPayFrequencyCode
    ∧ (PayFrequencyCode.set BiWeeklyPayFrequencyCode.toString).1 ≠ BiWeeklyPayFrequencyCode := by
  decide

/-- C3 counterexample: with discovery failing, two successive
WithJurisdictionsByCode calls in the same process each trigger a discovery
attempt, so discovery is neither at-most-once per process nor unretried after
a failure. -/
theorem C3_discovery_retried_after_failure :
    ((NewBuilder []).withJurisdictionsByCode ["CA"] []
      ⟨.error ("could not find version in loader")⟩).2.2 = true
    ∧ ((NewBuilder []).withJurisdictionsByCode ["CA"]
        ((NewBuilder []).withJurisdictionsByCode ["CA"] []
          ⟨.error ("could not find version in loader")⟩).2.1
        ⟨.error ("could not find version in loader")⟩).2.2 = true := by
  decide

/-- C3 amended: an error-free WithJurisdictionsByCode call attempts discovery
exactly when the process directory is empty, and a failed attempt leaves the
directory unchanged (hence still empty), so the next call attempts discovery
again; there is no once-guard. -/
theorem C3_amended_discovery_on_empty (b : Builder) (codes : List String)
    (dir : Directory) (w : JurisdictionWorld) (herr : b.errorMessage = "") :
    ((b.withJurisdictionsByCode codes dir w).2.2 = true ↔ dir.length < 1)
    ∧ (∀ e, w.loadResult = .error e →
        (b.withJurisdictionsByCode codes dir w).2.1 = dir) := by
  have hb : b.validate = none := by simp [Builder.validate, herr]
  by_cases hlen : dir.length < 1
  · cases hw : w.loadResult with
    | error e =>
      refine ⟨?_, fun e2 hw2 => ?_⟩
      · simp [Builder.withJurisdictionsByCode, hb, LoadJurisdictions, hw, hlen]
      · simp [Builder.withJurisdictionsByCode, hb, LoadJurisdictions, hw, hlen]
    | ok js =>
      refine ⟨?_, fun e2 hw2 => ?_⟩
      · cases hlc : lookupCodes (populateJurisdictionsByCode dir js) codes with
        | error e2 =>
          simp [Builder.withJurisdictionsByCode, hb, LoadJurisdictions, hw, hlen, hlc]
        | ok js2 =>
          simp [Builder.withJurisdictionsByCode, hb, LoadJurisdictions, hw, hlen, hlc]
      · simp at hw2
  · refine ⟨?_, fun e2 hw2 => ?_⟩
    · cases hlc : lookupCodes dir codes with
      | error e3 => simp [Builder.withJurisdictionsByCode, hb, hlen, hlc]
      | ok js2 => simp [Builder.withJurisdictionsByCode, hb, hlen, hlc]
    · cases hlc : lookupCodes dir codes with
      | error e3 => simp [Builder.withJurisdictionsByCode, hb, hlen, hlc]
      | ok js2 => simp [Builder.withJurisdictionsByCode, hb, hlen, hlc]

/-- C3 witness: a concrete failed discovery attempt leaves the directory
empty. -/
theorem C3_amended_witness :
    ((NewBuilder []).withJurisdictionsByCode ["CA"] []
      ⟨.error ("could not find version in loader")⟩).2.1 = ([] : Directory) :=
  (C3_amended_discovery_on_empty (NewBuilder []) ["CA"] []
    ⟨.error ("could not find version in loader")⟩ (by decide)).2
    ("could not find version in loader") rfl

/-- C4 counterexample: a negative salary parses as a float, so the builder's
validation error surfaces through retrieveOrRequest and the handler answers
500 — not the 400 the claim requires for validation errors — with the
validation message in the body. -/
theorem C4_validation_error_gets_500 :
    (serveHTTP { salary := "-100", payFrequency := "", state := "" } [] []
        { waitResult := .ok (), jw := ⟨.ok []⟩, upstream := ⟨.ok zeroResponse⟩,
          payDate := "2026-01-01" }).1 =
      { status := 500,
        body := "failed to retrieve or request: failed to send request: " ++
          "salary amount must be non-negative\n" } := by
  decide

/-- C4 amended: the handler answers 400 exactly for parameter-parse failures
(missing or non-float salary); every error surfaced by retrieveOrRequest —
including builder validation errors such as a negative salary or an unknown
jurisdiction code — is answered with 500; in both cases the error text is in
the response body. -/
theorem C4_amended_status_mapping (q : Query) (cache : Cache) (dir : Directory)
    (w : ServerWorld) :
    (∀ e, parseRequestParams q = .error e →
      (serveHTTP q cache dir w).1 =
        { status := 400, body := "failed to parse request params: " ++ e ++ "\n" })
    ∧ (∀ p e, parseRequestParams q = .ok p →
        (p.retrieveOrRequest cache dir w).result = .error e →
        (serveHTTP q cache dir w).1 =
          { status := 500, body := "failed to retrieve or request: " ++ e ++ "\n" }) := by
  constructor
  · intro e he
    simp [serveHTTP, he]
  · intro p e hp hr
    simp [serveHTTP, hp, hr]

/-- C4 witness: a request with no salary parameter is answered with 400 and
the parse error text. -/
theorem C4_amended_witness :
    (serveHTTP { salary := "", payFrequency := "", state := "" } [] []
        { waitResult := .ok (), jw := ⟨.ok []⟩, upstream := ⟨.ok zeroResponse⟩,
          payDate := "2026-01-01" }).1 =
      { status := 400, body := "failed to parse request params: salary must be specified\n" } :=
  (C4_amended_status_mapping { salary := "", payFrequency := "", state := "" } [] [] _).1
    ("salary must be specified") rfl

/-- Directory well-formedness: every entry of the process map is keyed by its
jurisdiction's short code. populateJurisdictionsByCode, the only writer of
the map, maintains this. -/
theorem populate_preserves_wf (dir : Directory) (js : List Jurisdiction)
    (hdir : ∀ p ∈ dir, p.2.jurisdictionCode.code = p.1) :
    ∀ p ∈ populateJurisdictionsByCode dir js, p.2.jurisdictionCode.code = p.1 := by
  induction js generalizing dir with
  | nil => simpa [populateJurisdictionsByCode] using hdir
  | cons j rest ih =>
    simp only [populateJurisdictionsByCode, List.foldl_cons]
    apply ih
    intro p hp
    unfold dirInsert at hp
    split at hp
    · obtain ⟨q, hq, hpq⟩ := List.mem_map.mp hp
      by_cases hqc : (q.1 == j.jurisdictionCode.code) = true
      · rw [if_pos hqc] at hpq
        subst hpq
        rfl
      · rw [if_neg hqc] at hpq
        subst hpq
        exact hdir q hq
    · rcases List.mem_append.mp hp with hq | hq
      · exact hdir p hq
      · rw [List.mem_singleton.mp hq]

/-- Whatever the well-formed directory holds, GetFederalJurisdiction returns
a jurisdiction whose code is US: a found entry is keyed by US, and both
fallback paths return the hardcoded federal constant. -/
theorem getFederal_code_us (dir : Directory)
    (hdir : ∀ p ∈ dir, p.2.jurisdictionCode.code = p.1) :
    (GetFederalJurisdiction dir).jurisdictionCode.code = "US" := by
  unfold GetFederalJurisdiction
  split
  · rfl
  · cases hmap : dir.find? (fun p => p.1 == ("US")) with
    | none => simp [dirLookup, hmap, FallbackFederalJurisdiction]
    | some p =>
      have hfind : dirLookup dir ("US") = some p.2 := by simp [dirLookup, hmap]
      rw [hfind]
      show p.2.jurisdictionCode.code = "US"
      have hp := List.find?_some hmap
      have hmem := List.mem_of_find?_eq_some hmap
      have hp1 : p.1 = "US" := by simpa using hp
      rw [hdir p hmem]
      exact hp1

/-- C5: for every builder with no sticky error, the composed request carries
a jurisdiction with code US in both the lived-in and the worked-in lists,
whatever was accumulated and whatever the (well-formed) directory holds. -/
theorem C5_federal_in_every_request (b : Builder) (dir : Directory) (payDate : String)
    (herr : b.errorMessage = "")
    (hdir : ∀ p ∈ dir, p.2.jurisdictionCode.code = p.1) :
    ((b.buildRequest dir payDate).jurisdictions.livedInJurisdictions.any
      (fun j => j.jurisdictionCode.code == "US")) = true
    ∧ ((b.buildRequest dir payDate).jurisdictions.workedInJurisdictions.any
      (fun j => j.jurisdictionCode.code == "US")) = true := by
  have key :
      ((if !(b.jurisdictions.any (fun j => j.jurisdictionCode.code == "US")) then
          b.jurisdictions ++ [GetFederalJurisdiction dir]
        else b.jurisdictions).any (fun j => j.jurisdictionCode.code == "US")) = true := by
    by_cases h : b.jurisdictions.any (fun j => j.jurisdictionCode.code == "US") = true
    · simp [h]
    · simp only [h, Bool.not_false, if_pos, Bool.not_eq_true] at *
      simp [List.any_append, getFederal_code_us dir hdir]
  constructor
  · simpa [Builder.buildRequest] using key
  · simpa [Builder.buildRequest] using key

/-- C5 witness: a builder with nothing accumulated against an empty directory
still yields a request with the federal jurisdiction in both lists. -/
theorem C5_witness :
    (((NewBuilder []).buildRequest [] ("2026-01-01")).jurisdictions.livedInJurisdictions.any
      (fun j => j.jurisdictionCode.code == "US")) = true
    ∧ (((NewBuilder []).buildRequest [] ("2026-01-01")).jurisdictions.workedInJurisdictions.any
      (fun j => j.jurisdictionCode.code == "US")) = true :=
  C5_federal_in_every_request (NewBuilder []) [] ("2026-01-01") rfl (by simp)

/-- The resolution loop fails with the source's message for the first code
missing from the directory. -/
theorem lookupCodes_first_unknown (dir : Directory) :
    ∀ (codes : List String) (c : String),
      codes.find? (fun code => (dirLookup dir code).isNone) = some c →
      lookupCodes dir codes = .error ("no jurisdiction found for code: " ++ c) := by
  intro codes
  induction codes with
  | nil => intro c h; cases h
  | cons code rest ih =>
    intro c h
    rw [List.find?_cons] at h
    cases hl : dirLookup dir code with
    | none =>
      rw [hl] at h
      simp at h
      subst h
      simp [lookupCodes, hl]
    | some j =>
      rw [hl] at h
      simp at h
      simp [lookupCodes, hl, ih c h]

/-- When every code is present in the directory, the resolution loop returns
exactly the list of looked-up jurisdictions. -/
theorem lookupCodes_all_known (dir : Directory) :
    ∀ codes : List String,
      codes.find? (fun code => (dirLookup dir code).isNone) = none →
      lookupCodes dir codes = .ok (codes.filterMap (dirLookup dir)) := by
  intro codes
  induction codes with
  | nil => intro _; simp [lookupCodes]
  | cons code rest ih =>
    intro h
    rw [List.find?_cons] at h
    cases hl : dirLookup dir code with
    | none => rw [hl] at h; simp at h
    | some j =>
      rw [hl] at h
      simp only [Option.isNone_some] at h
      simp [lookupCodes, hl, ih h, List.filterMap_cons]

/-- C6: against a populated directory and an error-free builder, an unknown
code leaves every accumulated field unchanged and sets the sticky error to
the source's message for the first unknown code; if all codes resolve, all of
them are appended to the jurisdictions, everything else unchanged. -/
theorem C6_by_code_resolution (b : Builder) (codes : List String) (dir : Directory)
    (w : JurisdictionWorld) (herr : b.errorMessage = "") (hpop : 1 ≤ dir.length) :
    (∀ c, codes.find? (fun code => (dirLookup dir code).isNone) = some c →
      b.withJurisdictionsByCode codes dir w =
        ({ b with errorMessage := "no jurisdiction found for code: " ++ c }, dir, false))
    ∧ (codes.find? (fun code => (dirLookup dir code).isNone) = none →
      b.withJurisdictionsByCode codes dir w =
        ({ b with jurisdictions := b.jurisdictions ++ codes.filterMap (dirLookup dir) },
          dir, false)) := by
  have hb : b.validate = none := by simp [Builder.validate, herr]
  have hlen : ¬ dir.length < 1 := by omega
  constructor
  · intro c hc
    simp [Builder.withJurisdictionsByCode, hb, hlen, lookupCodes_first_unknown dir codes c hc]
  · intro hc
    simp [Builder.withJurisdictionsByCode, hb, hlen, lookupCodes_all_known dir codes hc, herr]

/-- C6 witness: the unknown code ZZ against a populated directory sets the
scenario's exact error message and leaves the builder otherwise unchanged. -/
theorem C6_witness :
    (NewBuilder []).withJurisdictionsByCode ["ZZ"]
        [("US", FallbackFederalJurisdiction)] ⟨.ok []⟩ =
      ({ NewBuilder [] with errorMessage := "no jurisdiction found for code: ZZ" },
        [("US", FallbackFederalJurisdiction)], false) :=
  (C6_by_code_resolution (NewBuilder []) ["ZZ"] [("US", FallbackFederalJurisdiction)]
    ⟨.ok []⟩ rfl (by decide)).1 ("ZZ") (by decide)

/-- C7: with the sticky error set, Send returns exactly that error without
serializing and without issuing the upstream POST, leaving the builder as it
was; with no sticky error, Send leaves the builder unmodified. -/
theorem C7_send_checks_error_first (b : Builder) (dir : Directory) (payDate : String)
    (w : UpstreamWorld) :
    (b.errorMessage ≠ "" →
      b.send dir payDate w =
        (b, .error b.errorMessage, { serialized := false, posted := false }))
    ∧ (b.errorMessage = "" → (b.send dir payDate w).1 = b) := by
  constructor
  · intro h
    have hb : b.validate = some b.errorMessage := by simp [Builder.validate, h]
    simp [Builder.send, hb]
  · intro h
    have hb : b.validate = none := by simp [Builder.validate, h]
    cases hw : w.postResult with
    | error e => simp [Builder.send, hb, hw]
    | ok resp => simp [Builder.send, hb, hw]

/-- C7 witness: after WithSalary(-100, annual), Send fails with the
validation error and performs no serialization and no POST. -/
theorem C7_witness :
    ((NewBuilder []).withSalary (-100) AnnualSalaryFrequency).send [] ("2026-01-01")
        ⟨.ok zeroResponse⟩ =
      ((NewBuilder []).withSalary (-100) AnnualSalaryFrequency,
        .error ("salary amount must be non-negative"),
        { serialized := false, posted := false }) :=
  (C7_send_checks_error_first ((NewBuilder []).withSalary (-100) AnnualSalaryFrequency)
    [] ("2026-01-01") ⟨.ok zeroResponse⟩).1 (by decide)

/-- A successful Send implies the upstream POST happened. -/
theorem send_ok_posted (b : Builder) (dir : Directory) (payDate : String)
    (w : UpstreamWorld) (resp : Response) :
    (b.send dir payDate w).2.1 = .ok resp → (b.send dir payDate w).2.2.posted = true := by
  unfold Builder.send
  cases b.validate with
  | some e => simp
  | none =>
    cases w.postResult with
    | error e => simp
    | ok r => simp

/-- C8: a cache hit returns the cached response with no limiter wait, no
upstream POST, and no state change; a cache miss always incurs the limiter
wait, and when it produces a success the upstream POST happened and the
result is stored under the derived key. -/
theorem C8_cache_hit_bypasses_limiter (params : RequestParams) (cache : Cache)
    (dir : Directory) (w : ServerWorld) :
    (∀ r, cacheGet cache params.getCacheKey = some r →
      params.retrieveOrRequest cache dir w =
        { result := .ok r, cache := cache, dir := dir, waited := false, posted := false })
    ∧ (cacheGet cache params.getCacheKey = none →
        (params.retrieveOrRequest cache dir w).waited = true
        ∧ ∀ resp, (params.retrieveOrRequest cache dir w).result = .ok resp →
            (params.retrieveOrRequest cache dir w).posted = true
            ∧ (params.retrieveOrRequest cache dir w).cache =
                cacheAdd cache params.getCacheKey resp) := by
  constructor
  · intro r hr
    simp [RequestParams.retrieveOrRequest, hr]
  · intro hmiss
    cases hw : w.waitResult with
    | error e =>
      refine ⟨by simp [RequestParams.retrieveOrRequest, hmiss, hw], ?_⟩
      intro resp hresp
      simp [RequestParams.retrieveOrRequest, hmiss, hw] at hresp
    | ok u =>
      refine ⟨?_, ?_⟩
      · cases hs : ((params.buildRequest dir w.jw).1.send (params.buildRequest dir w.jw).2
            w.payDate w.upstream).2.1 with
        | error e => simp [RequestParams.retrieveOrRequest, hmiss, hw, hs]
        | ok r => simp [RequestParams.retrieveOrRequest, hmiss, hw, hs]
      · intro resp hresp
        cases hs : ((params.buildRequest dir w.jw).1.send (params.buildRequest dir w.jw).2
            w.payDate w.upstream).2.1 with
        | error e =>
          simp [RequestParams.retrieveOrRequest, hmiss, hw, hs] at hresp
        | ok r =>
          have hpost := send_ok_posted (params.buildRequest dir w.jw).1
            (params.buildRequest dir w.jw).2 w.payDate w.upstream r hs
          simp [RequestParams.retrieveOrRequest, hmiss, hw, hs] at hresp ⊢
          subst hresp
          exact ⟨hpost, rfl⟩

/-- C8 witness: a request whose derived key is cached is answered from the
cache with no wait, no POST, and the cache and directory unchanged. -/
theorem C8_witness :
    ({ salary := 100, payFrequency := MonthlyPayFrequencyCode, state := "" : RequestParams }).retrieveOrRequest
        [(({ salary := 100, payFrequency := MonthlyPayFrequencyCode, state := "" : RequestParams }).getCacheKey, zeroResponse)] []
        { waitResult := .ok (), jw := ⟨.ok []⟩, upstream := ⟨.ok zeroResponse⟩,
          payDate := "2026-01-01" } =
      { result := .ok zeroResponse,
        cache := [(({ salary := 100, payFrequency := MonthlyPayFrequencyCode, state := "" : RequestParams }).getCacheKey, zeroResponse)],
        dir := [], waited := false, posted := false } :=
  (C8_cache_hit_bypasses_limiter ({ salary := 100, payFrequency := MonthlyPayFrequencyCode, state := "" : RequestParams })
    [(({ salary := 100, payFrequency := MonthlyPayFrequencyCode, state := "" : RequestParams }).getCacheKey, zeroResponse)] []
    { waitResult := .ok (), jw := ⟨.ok []⟩, upstream := ⟨.ok zeroResponse⟩,
      payDate := "2026-01-01" }).1 zeroResponse (by simp [cacheGet])

/-- C9: Set on a pay-frequency string never returns an error; every string
outside the four recognized labels maps to the monthly code; and whether
parseRequestParams accepts a request never depends on the pay-frequency
parameter. -/
theorem C9_pay_frequency_never_fails (s : String) (q : Query) :
    (PayFrequencyCode.set s).2 = none
    ∧ (s ∉ (["monthly", "semi-monthly", "biweekly", "weekly"] : List String) →
        (PayFrequencyCode.set s).1 = MonthlyPayFrequencyCode)
    ∧ (∀ pf : String,
        exceptIsOk (parseRequestParams { q with payFrequency := pf }) =
          exceptIsOk (parseRequestParams q)) := by
  refine ⟨?_, ?_, ?_⟩
  · unfold PayFrequencyCode.set
    split_ifs <;> rfl
  · intro hmem
    unfold PayFrequencyCode.set
    split_ifs with h1 h2 h3 h4
    · exact absurd (by simp [h1]) hmem
    · exact absurd (by simp [h2]) hmem
    · exact absurd (by simp [h3]) hmem
    · exact absurd (by simp [h4]) hmem
    · rfl
  · intro pf
    unfold parseRequestParams
    by_cases hs : q.salary = ""
    · simp [hs, exceptIsOk]
    · cases hp : parseFloat? q.salary with
      | none => simp [hs, hp, exceptIsOk]
      | some v => simp [hs, hp, exceptIsOk]

/-- C9 witness: the unrecognized label yields the monthly code with no error,
and a request differing only in the pay-frequency parameter parses the same. -/
theorem C9_witness :
    (PayFrequencyCode.set ("quarterly")).1 = MonthlyPayFrequencyCode :=
  (C9_pay_frequency_never_fails ("quarterly")
    { salary := "100", payFrequency := "", state := "" }).2.1 (by decide)
